import Mathlib

/-!
Verification of the BejoFood order/payment lifecycle engine against its
specification.  The definitions below are a shallow embedding of the Python
source under `backend/`:

* `payments/services.py` (`MidtransService.verify_signature`,
  `MidtransService.handle_notification`),
* `bot/handlers/conversation.py` (`finalize_order`),
* `orders/models.py` (`Order.save` order-number generation),
* `bot/handlers/callbacks.py` (`handle_cart_action`).

Database tables are embedded as association lists, wall-clock time as a `Nat`
parameter, and the SHA-512 hex digest as an abstract function parameter
`sha512hex : String → String` (a cryptographic hash is not translatable; the
theorems that need collision-freedom take injectivity as a hypothesis).
-/

namespace BejoFood

/-! ### Payment gateway adapter (payments/services.py) -/

/-- A Midtrans notification payload, the fields read by
`MidtransService.handle_notification` (services.py lines 149-154). -/
structure Notification where
  order_id : String
  transaction_id : String
  transaction_status : String
  signature_key : String
  status_code : String
  gross_amount : String
deriving DecidableEq, Repr

/-- The mutable state of one `Payment` row together with its linked `Order`
row status (payments/models.py `Payment`, orders/models.py `Order.status`).
`midtrans_response` tracks the last stored raw notification payload
(`none` models the initial charge-response content, which is never a
notification). -/
structure PaymentState where
  status : String
  paid_at : Option Nat
  midtrans_response : Option Notification
  order_status : String
deriving DecidableEq, Repr

/-- `MidtransService.verify_signature` (services.py lines 131-139):
`sha512(order_id + status_code + gross_amount + server_key) == signature_key`. -/
def verify_signature (sha512hex : String → String) (server_key : String)
    (order_id status_code gross_amount signature_key : String) : Bool :=
  sha512hex (order_id ++ status_code ++ gross_amount ++ server_key) == signature_key

/-- The status-mapping block of `handle_notification`
(services.py lines 170-187): the if/elif chain on `transaction_status`.
An unrecognised status falls through and changes nothing. -/
def update_payment_status (now : Nat) (transaction_status : String)
    (p : PaymentState) : PaymentState :=
  if transaction_status = "settlement" then
    { p with status := "settlement", paid_at := some now, order_status := "confirmed" }
  else if transaction_status = "pending" then
    { p with status := "pending" }
  else if transaction_status = "deny" ∨ transaction_status = "cancel" then
    { p with status := transaction_status, order_status := "cancelled" }
  else if transaction_status = "expire" then
    { p with status := "expire", order_status := "cancelled" }
  else p

/-- `Payment.objects.get(transaction_id=...)` over the payments table, keyed
by the (unique) transaction id. -/
def findPayment : List (String × PaymentState) → String → Option PaymentState
  | [], _ => none
  | e :: rest, tid => if e.1 = tid then some e.2 else findPayment rest tid

/-- `payment.save()`: write back the row with the given transaction id. -/
def savePayment : List (String × PaymentState) → String → PaymentState →
    List (String × PaymentState)
  | [], _, _ => []
  | e :: rest, tid, p => (if e.1 = tid then (tid, p) else e) :: savePayment rest tid p

/-- `MidtransService.handle_notification` (services.py lines 141-194):
reject on bad signature, reject when no Payment matches the transaction id,
otherwise apply the status mapping, overwrite `midtrans_response` with the
raw payload, save, and report success. -/
def handle_notification (sha512hex : String → String) (server_key : String)
    (now : Nat) (db : List (String × PaymentState)) (n : Notification) :
    List (String × PaymentState) × Bool × String :=
  if verify_signature sha512hex server_key
      n.order_id n.status_code n.gross_amount n.signature_key then
    match findPayment db n.transaction_id with
    | none => (db, false, "Payment not found")
    | some payment =>
        (savePayment db n.transaction_id
          { update_payment_status now n.transaction_status payment with
              midtrans_response := some n },
         true,
         "Status updated to "
           ++ (update_payment_status now n.transaction_status payment).status)
  else
    (db, false, "Invalid signature")

/-- Projection of a payment row that forgets `paid_at` (used to state in what
sense a replayed notification is a no-op). -/
structure PaymentView where
  status : String
  midtrans_response : Option Notification
  order_status : String
deriving DecidableEq, Repr

def stripPaid (p : PaymentState) : PaymentView :=
  { status := p.status, midtrans_response := p.midtrans_response,
    order_status := p.order_status }

def stripDB : List (String × PaymentState) → List (String × PaymentView)
  | [] => []
  | e :: rest => (e.1, stripPaid e.2) :: stripDB rest

/-! ### Helper lemmas about the payments table -/

lemma findPayment_savePayment (db : List (String × PaymentState)) (tid : String)
    (q : PaymentState) (h : (findPayment db tid).isSome) :
    findPayment (savePayment db tid q) tid = some q := by
  induction db with
  | nil => simp [findPayment] at h
  | cons e rest ih =>
      by_cases he : e.1 = tid
      · simp [savePayment, findPayment, he]
      · simp [savePayment, findPayment, he] at h ⊢
        exact ih h

lemma savePayment_savePayment (db : List (String × PaymentState)) (tid : String)
    (p q : PaymentState) :
    savePayment (savePayment db tid p) tid q = savePayment db tid q := by
  induction db with
  | nil => rfl
  | cons e rest ih =>
      by_cases he : e.1 = tid
      · simp [savePayment, he, ih]
      · simp [savePayment, he, ih]

lemma stripDB_savePayment_congr (db : List (String × PaymentState)) (tid : String)
    (p q : PaymentState) (h : stripPaid p = stripPaid q) :
    stripDB (savePayment db tid p) = stripDB (savePayment db tid q) := by
  induction db with
  | nil => rfl
  | cons e rest ih =>
      by_cases he : e.1 = tid
      · simp [savePayment, stripDB, he, h, ih]
      · simp [savePayment, stripDB, he, ih]

lemma update_payment_status_midtrans (now : Nat) (ts : String) (p : PaymentState) :
    (update_payment_status now ts p).midtrans_response = p.midtrans_response := by
  unfold update_payment_status
  split_ifs <;> rfl

lemma handle_eq_of_accepted (sha512hex : String → String) (key : String)
    (now : Nat) (db : List (String × PaymentState)) (n : Notification)
    (p : PaymentState)
    (hsig : verify_signature sha512hex key
      n.order_id n.status_code n.gross_amount n.signature_key = true)
    (hfind : findPayment db n.transaction_id = some p) :
    handle_notification sha512hex key now db n =
      (savePayment db n.transaction_id
        { update_payment_status now n.transaction_status p with
            midtrans_response := some n },
       true,
       "Status updated to "
         ++ (update_payment_status now n.transaction_status p).status) := by
  unfold handle_notification
  simp [hsig, hfind]

lemma handle_accepted (sha512hex : String → String) (key : String) (now : Nat)
    (db : List (String × PaymentState)) (n : Notification)
    (h : (handle_notification sha512hex key now db n).2.1 = true) :
    verify_signature sha512hex key
      n.order_id n.status_code n.gross_amount n.signature_key = true ∧
    ∃ p, findPayment db n.transaction_id = some p := by
  by_cases hs : verify_signature sha512hex key
      n.order_id n.status_code n.gross_amount n.signature_key = true
  · refine ⟨hs, ?_⟩
    cases hf : findPayment db n.transaction_id with
    | none =>
        exfalso
        unfold handle_notification at h
        simp [hs, hf] at h
    | some p => exact ⟨p, rfl⟩
  · exfalso
    rw [Bool.not_eq_true] at hs
    unfold handle_notification at h
    simp [hs] at h

/-! ### Concrete sample rows and payloads used by witnesses -/

/-- A freshly charged payment: status pending, order pending. -/
def samplePending : PaymentState :=
  { status := "pending", paid_at := none, midtrans_response := none,
    order_status := "pending" }

/-- A settled payment whose order is confirmed (terminal status). -/
def sampleSettled : PaymentState :=
  { status := "settlement", paid_at := some 0, midtrans_response := none,
    order_status := "confirmed" }

/-- With the abstract digest instantiated to the identity function and server
key "K", this payload's `signature_key` is exactly
`order_id ++ status_code ++ gross_amount ++ "K"`, so it verifies. -/
def sampleSettlementNote : Notification :=
  { order_id := "O1", transaction_id := "T1", transaction_status := "settlement",
    signature_key := "O1200100K", status_code := "200", gross_amount := "100" }

def sampleExpireNote : Notification :=
  { order_id := "O1", transaction_id := "T1", transaction_status := "expire",
    signature_key := "O1200100K", status_code := "200", gross_amount := "100" }

def sampleRefundNote : Notification :=
  { order_id := "O1", transaction_id := "T1", transaction_status := "refund",
    signature_key := "O1200100K", status_code := "200", gross_amount := "100" }

def sampleBadSigNote : Notification :=
  { order_id := "O1", transaction_id := "T1", transaction_status := "settlement",
    signature_key := "wrong", status_code := "200", gross_amount := "100" }

/-! ### Claim C1 -/

/-- Claim C1 (code divergence): the specification mandates that terminal
payment statuses are sticky, but `handle_notification` has no such guard.
Concretely, a Payment already in terminal status settlement with its order
confirmed, on receiving a later valid notification carrying expire, is
changed to status expire and its order is cancelled. -/
theorem c1_terminal_status_not_sticky :
    handle_notification (fun s => s) "K" 5 [("T1", sampleSettled)]
        sampleExpireNote =
      ([("T1",
          { status := "expire", paid_at := some 0,
            midtrans_response := some sampleExpireNote,
            order_status := "cancelled" })],
       true, "Status updated to expire") := by
  decide

/-! ### Claim C6 -/

/-- Claim C6: for an accepted notification (valid signature, matching
Payment), `handle_notification` realises the specified status mapping:
settlement sets Payment settlement / Order confirmed / paid_at now; pending
sets Payment pending and leaves the Order (and paid_at) unchanged; deny and
cancel set Payment deny/cancel and Order cancelled; expire sets Payment
expire and Order cancelled. -/
theorem c6_status_mapping (sha512hex : String → String) (key : String)
    (now : Nat) (db : List (String × PaymentState)) (n : Notification)
    (p : PaymentState)
    (hsig : verify_signature sha512hex key
      n.order_id n.status_code n.gross_amount n.signature_key = true)
    (hfind : findPayment db n.transaction_id = some p) :
    ∃ q, findPayment (handle_notification sha512hex key now db n).1
        n.transaction_id = some q ∧
      (n.transaction_status = "settlement" →
        q.status = "settlement" ∧ q.order_status = "confirmed" ∧
        q.paid_at = some now) ∧
      (n.transaction_status = "pending" →
        q.status = "pending" ∧ q.order_status = p.order_status ∧
        q.paid_at = p.paid_at) ∧
      ((n.transaction_status = "deny" ∨ n.transaction_status = "cancel") →
        q.status = n.transaction_status ∧ q.order_status = "cancelled") ∧
      (n.transaction_status = "expire" →
        q.status = "expire" ∧ q.order_status = "cancelled") := by
  refine ⟨{ update_payment_status now n.transaction_status p with
      midtrans_response := some n }, ?_, ?_, ?_, ?_, ?_⟩
  · rw [handle_eq_of_accepted sha512hex key now db n p hsig hfind]
    exact findPayment_savePayment db n.transaction_id _ (by simp [hfind])
  · intro hts; simp [update_payment_status, hts]
  · intro hts; simp [update_payment_status, hts]
  · rintro (hts | hts) <;> simp [update_payment_status, hts]
  · intro hts; simp [update_payment_status, hts]

/-- Witness for C6: a concrete settlement notification against a pending
payment yields Payment settlement, Order confirmed, paid_at = 7. -/
theorem c6_status_mapping_witness :
    verify_signature (fun s => s) "K" "O1" "200" "100" "O1200100K" = true ∧
    ∃ q, findPayment (handle_notification (fun s => s) "K" 7
        [("T1", samplePending)] sampleSettlementNote).1 "T1" = some q ∧
      q.status = "settlement" ∧ q.order_status = "confirmed" ∧
      q.paid_at = some 7 := by
  refine ⟨by decide, ?_⟩
  obtain ⟨q, hq, hset, -, -, -⟩ := c6_status_mapping (fun s => s) "K" 7
    [("T1", samplePending)] sampleSettlementNote samplePending (by decide) rfl
  obtain ⟨h1, h2, h3⟩ := hset rfl
  exact ⟨q, hq, h1, h2, h3⟩

/-! ### Claim C9 -/

/-- Claim C9: a valid notification matching a Payment but carrying a
transaction status outside settlement/pending/deny/cancel/expire falls
through the whole if/elif chain: the Payment keeps its status, paid_at and
order status, yet its stored raw provider response is overwritten with the
new payload and the call reports success. -/
theorem c9_unknown_status_overwrites_response (sha512hex : String → String)
    (key : String) (now : Nat) (db : List (String × PaymentState))
    (n : Notification) (p : PaymentState)
    (hsig : verify_signature sha512hex key
      n.order_id n.status_code n.gross_amount n.signature_key = true)
    (hfind : findPayment db n.transaction_id = some p)
    (hts : n.transaction_status ∉
      (["settlement", "pending", "deny", "cancel", "expire"] : List String)) :
    (handle_notification sha512hex key now db n).2.1 = true ∧
    findPayment (handle_notification sha512hex key now db n).1
      n.transaction_id = some { p with midtrans_response := some n } := by
  simp only [List.mem_cons, List.mem_singleton, not_or] at hts
  obtain ⟨h1, h2, h3, h4, h5⟩ := hts
  have hupd : update_payment_status now n.transaction_status p = p := by
    unfold update_payment_status
    simp [h1, h2, h3, h4, h5]
  rw [handle_eq_of_accepted sha512hex key now db n p hsig hfind]
  refine ⟨rfl, ?_⟩
  rw [hupd]
  exact findPayment_savePayment db n.transaction_id _ (by simp [hfind])

/-- Witness for C9: a valid notification with the unmapped status
"refund" against a settled payment leaves everything but the stored raw
response unchanged and reports success. -/
theorem c9_unknown_status_witness :
    (handle_notification (fun s => s) "K" 9 [("T1", sampleSettled)]
        sampleRefundNote).2.1 = true ∧
    findPayment (handle_notification (fun s => s) "K" 9 [("T1", sampleSettled)]
        sampleRefundNote).1 "T1" =
      some { sampleSettled with midtrans_response := some sampleRefundNote } :=
  c9_unknown_status_overwrites_response (fun s => s) "K" 9
    [("T1", sampleSettled)] sampleRefundNote sampleSettled
    (by decide) rfl (by decide)

/-! ### Claim C2: replay of a notification -/

lemma update_payment_status_idem (now now' : Nat) (ts : String)
    (p : PaymentState) :
    update_payment_status now' ts (update_payment_status now ts p) =
      if ts = "settlement" then
        { update_payment_status now ts p with paid_at := some now' }
      else update_payment_status now ts p := by
  unfold update_payment_status
  split_ifs <;> rfl

lemma update_payment_status_idem_same (now : Nat) (ts : String)
    (p : PaymentState) :
    update_payment_status now ts (update_payment_status now ts p) =
      update_payment_status now ts p := by
  rw [update_payment_status_idem]
  split_ifs with h
  · subst h
    simp [update_payment_status]
  · rfl

lemma update_payment_status_set_response (now : Nat) (ts : String)
    (p : PaymentState) (m : Option Notification) :
    update_payment_status now ts { p with midtrans_response := m } =
      { update_payment_status now ts p with midtrans_response := m } := by
  unfold update_payment_status
  split_ifs <;> rfl

lemma update_update_status (now now' : Nat) (ts : String) (p : PaymentState) :
    (update_payment_status now' ts (update_payment_status now ts p)).status =
      (update_payment_status now ts p).status := by
  rw [update_payment_status_idem]
  split_ifs <;> rfl

lemma update_update_order (now now' : Nat) (ts : String) (p : PaymentState) :
    (update_payment_status now' ts
        (update_payment_status now ts p)).order_status =
      (update_payment_status now ts p).order_status := by
  rw [update_payment_status_idem]
  split_ifs <;> rfl

/-- Claim C2 counterexample: replaying the same valid settlement notification
at a later time is not a no-op on the stored state: `paid_at` is overwritten
with the time of the replay (0 after the first application, 1 after the
second), so the states differ. -/
theorem c2_counterexample :
    (handle_notification (fun s => s) "K" 1
        (handle_notification (fun s => s) "K" 0 [("T1", samplePending)]
          sampleSettlementNote).1 sampleSettlementNote).1 ≠
      (handle_notification (fun s => s) "K" 0 [("T1", samplePending)]
        sampleSettlementNote).1 := by
  decide

/-- Claim C2 (amended): replaying an accepted notification is accepted again
and is a no-op on every stored field except `paid_at`: the payments table
after the replay agrees with the table after the first application once
`paid_at` is projected away, and when the replay happens at the same
timestamp it is a complete no-op (a repeated settlement notification
overwrites `paid_at` with the replay time). -/
theorem c2_idempotent_amended (sha512hex : String → String) (key : String)
    (now now' : Nat) (db : List (String × PaymentState)) (n : Notification)
    (hacc : (handle_notification sha512hex key now db n).2.1 = true) :
    (handle_notification sha512hex key now'
        (handle_notification sha512hex key now db n).1 n).2.1 = true ∧
    stripDB (handle_notification sha512hex key now'
        (handle_notification sha512hex key now db n).1 n).1 =
      stripDB (handle_notification sha512hex key now db n).1 ∧
    (now' = now →
      (handle_notification sha512hex key now'
          (handle_notification sha512hex key now db n).1 n).1 =
        (handle_notification sha512hex key now db n).1) := by
  obtain ⟨hsig, p, hfind⟩ := handle_accepted sha512hex key now db n hacc
  set u := update_payment_status now n.transaction_status p with hu
  have h1 : handle_notification sha512hex key now db n =
      (savePayment db n.transaction_id { u with midtrans_response := some n },
       true, "Status updated to " ++ u.status) :=
    handle_eq_of_accepted sha512hex key now db n p hsig hfind
  have hfind1 : findPayment (handle_notification sha512hex key now db n).1
      n.transaction_id = some { u with midtrans_response := some n } := by
    rw [h1]
    exact findPayment_savePayment db n.transaction_id _ (by simp [hfind])
  have h2 := handle_eq_of_accepted sha512hex key now'
    (handle_notification sha512hex key now db n).1 n
    { u with midtrans_response := some n } hsig hfind1
  have hresp : update_payment_status now' n.transaction_status
      { u with midtrans_response := some n } =
      { update_payment_status now' n.transaction_status u with
          midtrans_response := some n } :=
    update_payment_status_set_response now' n.transaction_status u (some n)
  refine ⟨by rw [h2], ?_, ?_⟩
  · rw [h2, h1]
    have hstrip : stripPaid { update_payment_status now' n.transaction_status
        { u with midtrans_response := some n } with
          midtrans_response := some n } =
        stripPaid { u with midtrans_response := some n } := by
      rw [hresp]
      simp only [stripPaid]
      rw [hu]
      rw [update_update_status, update_update_order]
    rw [savePayment_savePayment]
    exact stripDB_savePayment_congr db n.transaction_id _ _ hstrip
  · intro hnow
    subst hnow
    rw [h2, h1]
    have hsame : update_payment_status now' n.transaction_status u = u := by
      rw [hu]
      exact update_payment_status_idem_same now' n.transaction_status p
    rw [hresp, hsame]
    exact savePayment_savePayment db n.transaction_id _ _

/-- Witness for the amended C2: replaying the concrete settlement
notification at the same timestamp leaves the payments table unchanged. -/
theorem c2_idempotent_amended_witness :
    (handle_notification (fun s => s) "K" 0
        (handle_notification (fun s => s) "K" 0 [("T1", samplePending)]
          sampleSettlementNote).1 sampleSettlementNote).1 =
      (handle_notification (fun s => s) "K" 0 [("T1", samplePending)]
        sampleSettlementNote).1 :=
  (c2_idempotent_amended (fun s => s) "K" 0 0 [("T1", samplePending)]
    sampleSettlementNote (by decide)).2.2 rfl

/-! ### Claim C8: persistence of the raw payload -/

lemma handle_rejected_db (sha512hex : String → String) (key : String)
    (now : Nat) (db : List (String × PaymentState)) (n : Notification)
    (h : (handle_notification sha512hex key now db n).2.1 = false) :
    (handle_notification sha512hex key now db n).1 = db := by
  by_cases hs : verify_signature sha512hex key
      n.order_id n.status_code n.gross_amount n.signature_key = true
  · cases hf : findPayment db n.transaction_id with
    | none =>
        unfold handle_notification
        simp [hs, hf]
    | some p =>
        exfalso
        rw [handle_eq_of_accepted sha512hex key now db n p hs hf] at h
        simp at h
  · rw [Bool.not_eq_true] at hs
    unfold handle_notification
    simp [hs]

/-- Claim C8 counterexample: a notification rejected for an invalid signature
leaves the payments table exactly as it was, and no row of that table stores
the rejected payload — the raw payload of a rejected notification is not
persisted anywhere (it is only written to the log). -/
theorem c8_counterexample :
    handle_notification (fun s => s) "K" 0 [("T1", samplePending)]
        sampleBadSigNote =
      ([("T1", samplePending)], false, "Invalid signature") ∧
    ∀ e ∈ [("T1", samplePending)],
      e.2.midtrans_response ≠ some sampleBadSigNote := by
  decide

/-- Claim C8 (amended): the raw notification payload is persisted — as the
matched Payment's `midtrans_response` — exactly when the notification is
accepted (valid signature and matching Payment); a rejected notification
leaves the payments table unchanged, so nothing is persisted for it. -/
theorem c8_persist_only_on_success (sha512hex : String → String) (key : String)
    (now : Nat) (db : List (String × PaymentState)) (n : Notification) :
    ((handle_notification sha512hex key now db n).2.1 = true →
      ∃ q, findPayment (handle_notification sha512hex key now db n).1
          n.transaction_id = some q ∧ q.midtrans_response = some n) ∧
    ((handle_notification sha512hex key now db n).2.1 = false →
      (handle_notification sha512hex key now db n).1 = db) := by
  constructor
  · intro hacc
    obtain ⟨hsig, p, hfind⟩ := handle_accepted sha512hex key now db n hacc
    refine ⟨{ update_payment_status now n.transaction_status p with
        midtrans_response := some n }, ?_, rfl⟩
    rw [handle_eq_of_accepted sha512hex key now db n p hsig hfind]
    exact findPayment_savePayment db n.transaction_id _ (by simp [hfind])
  · exact handle_rejected_db sha512hex key now db n

/-- Witness for the amended C8: the concrete accepted settlement notification
ends up stored on the matched payment row. -/
theorem c8_persist_witness :
    ∃ q, findPayment (handle_notification (fun s => s) "K" 3
        [("T1", samplePending)] sampleSettlementNote).1 "T1" = some q ∧
      q.midtrans_response = some sampleSettlementNote :=
  (c8_persist_only_on_success (fun s => s) "K" 3 [("T1", samplePending)]
    sampleSettlementNote).1 (by decide)

/-! ### Claim C7: signature verification -/

lemma string_append_cancel_right (a b c : String) (h : a ++ c = b ++ c) :
    a = b := by
  have hd : a.data ++ c.data = b.data ++ c.data := by
    have h2 := congrArg String.data h
    have ha : (a ++ c).data = a.data ++ c.data := rfl
    have hb : (b ++ c).data = b.data ++ c.data := rfl
    rw [ha, hb] at h2
    exact h2
  exact String.ext (List.append_cancel_right hd)

lemma string_append_cancel_left (a b c : String) (h : a ++ b = a ++ c) :
    b = c := by
  have hd : a.data ++ b.data = a.data ++ c.data := by
    have h2 := congrArg String.data h
    have hb : (a ++ b).data = a.data ++ b.data := rfl
    have hc : (a ++ c).data = a.data ++ c.data := rfl
    rw [hb, hc] at h2
    exact h2
  exact String.ext (List.append_cancel_left hd)

/-- Claim C7: `verify_signature` accepts exactly the payloads whose signature
equals the digest of `order_id ++ status_code ++ gross_amount ++ server_key`;
assuming the digest is injective (the ideal-hash reading of the claim),
mutating exactly one of the three payload fields of an accepted payload makes
verification fail; and `handle_notification` rejects any notification whose
signature does not verify, returning the table unchanged. -/
theorem c7_signature_verification (sha512hex : String → String)
    (hinj : Function.Injective sha512hex) (key : String)
    (o s g sig o' s' g' : String) (now : Nat)
    (db : List (String × PaymentState)) (n : Notification) :
    (verify_signature sha512hex key o s g sig = true ↔
      sha512hex (o ++ s ++ g ++ key) = sig) ∧
    (verify_signature sha512hex key o s g sig = true →
      ((o' ≠ o ∧ s' = s ∧ g' = g) ∨ (o' = o ∧ s' ≠ s ∧ g' = g) ∨
        (o' = o ∧ s' = s ∧ g' ≠ g)) →
      verify_signature sha512hex key o' s' g' sig = false) ∧
    (verify_signature sha512hex key n.order_id n.status_code n.gross_amount
        n.signature_key = false →
      handle_notification sha512hex key now db n =
        (db, false, "Invalid signature")) := by
  refine ⟨by simp [verify_signature], ?_, ?_⟩
  · intro hacc hmut
    rw [Bool.eq_false_iff]
    intro hacc'
    have he : sha512hex (o ++ s ++ g ++ key) = sig := by
      simpa [verify_signature] using hacc
    have he' : sha512hex (o' ++ s' ++ g' ++ key) = sig := by
      simpa [verify_signature] using hacc'
    have hcat : o' ++ s' ++ g' ++ key = o ++ s ++ g ++ key :=
      hinj (he'.trans he.symm)
    rcases hmut with ⟨ho, hs, hg⟩ | ⟨ho, hs, hg⟩ | ⟨ho, hs, hg⟩
    · rw [hs, hg] at hcat
      exact ho (string_append_cancel_right o' o s
        (string_append_cancel_right (o' ++ s) (o ++ s) g
          (string_append_cancel_right (o' ++ s ++ g) (o ++ s ++ g) key hcat)))
    · rw [ho, hg] at hcat
      exact hs (string_append_cancel_left o s' s
        (string_append_cancel_right (o ++ s') (o ++ s) g
          (string_append_cancel_right (o ++ s' ++ g) (o ++ s ++ g) key hcat)))
    · rw [ho, hs] at hcat
      exact hg (string_append_cancel_left (o ++ s) g' g
        (string_append_cancel_right (o ++ s ++ g') (o ++ s ++ g) key hcat))
  · intro h
    unfold handle_notification
    simp [h]

/-- Witness for C7: with the digest instantiated to the (injective) identity
function, a concrete payload verifies, a one-field mutation of it fails, and
a bad-signature notification is rejected with the table unchanged. -/
theorem c7_signature_witness :
    verify_signature (fun s => s) "K" "O1" "200" "100" "O1200100K" = true ∧
    verify_signature (fun s => s) "K" "O2" "200" "100" "O1200100K" = false ∧
    handle_notification (fun s => s) "K" 0 [("T1", samplePending)]
        sampleBadSigNote =
      ([("T1", samplePending)], false, "Invalid signature") := by
  have h := c7_signature_verification (fun s => s) (fun a b hab => hab) "K"
    "O1" "200" "100" "O1200100K" "O2" "200" "100" 0 [("T1", samplePending)]
    sampleBadSigNote
  refine ⟨by decide, ?_, ?_⟩
  · exact h.2.1 (by decide) (Or.inl ⟨by decide, rfl, rfl⟩)
  · exact h.2.2 (by decide)

/-! ### Checkout pipeline (bot/handlers/conversation.py, finalize_order) -/

/-- A `MenuItem` row: the fields `finalize_order` reads (menu/models.py). -/
structure MenuItemRow where
  id : Nat
  name : String
  price : Nat
deriving DecidableEq, Repr

/-- A `CartItem` line of the finalizing user's cart: item reference and
quantity; name and price are NOT stored on the cart (orders/models.py
`CartItem`). -/
structure CartLine where
  menu_item_id : Nat
  quantity : Nat
deriving DecidableEq, Repr

/-- `user.conversation_data` as read by `finalize_order`
(keys address/phone/notes, `.get(key, '')`). -/
structure ConvData where
  address : String
  phone : String
  notes : String
deriving DecidableEq, Repr

structure UserConv where
  conversation_state : String
  conversation_data : ConvData
deriving DecidableEq, Repr

/-- `MenuItem` lookup by primary key (the `select_related('menu_item')`
FK dereference; in the source the FK always resolves). -/
def lookupMenu : List MenuItemRow → Nat → Option MenuItemRow
  | [], _ => none
  | m :: rest, iid => if m.id = iid then some m else lookupMenu rest iid

/-- `cart_item.menu_item.name` (total with default, the FK never dangles). -/
def nameOf (menu : List MenuItemRow) (iid : Nat) : String :=
  ((lookupMenu menu iid).map MenuItemRow.name).getD ""

/-- `cart_item.menu_item.price` (total with default, the FK never dangles). -/
def priceOf (menu : List MenuItemRow) (iid : Nat) : Nat :=
  ((lookupMenu menu iid).map MenuItemRow.price).getD 0

/-- The `Order` row created by `finalize_order` (orders/models.py). -/
structure OrderRow where
  status : String
  delivery_address : String
  phone : String
  notes : String
  total : Nat
deriving DecidableEq, Repr

/-- An `OrderItem` snapshot row (orders/models.py). -/
structure OrderLineRow where
  menu_item_id : Nat
  name : String
  quantity : Nat
  price : Nat
deriving DecidableEq, Repr

structure FinalizeResult where
  user : UserConv
  cart : List CartLine
  created : Option (OrderRow × List OrderLineRow)
  empty_cart_message : Bool
deriving DecidableEq, Repr

/-- `finalize_order` (conversation.py lines 104-161), its state effects:
empty cart → reset conversation, send the empty-cart message, create
nothing; otherwise compute the total from the items' current prices, create
one Order plus one snapshot OrderItem per cart line (name/price read from
the menu at this moment), clear the cart, reset the conversation. -/
def finalize_order (menu : List MenuItemRow) (cart : List CartLine)
    (u : UserConv) : FinalizeResult :=
  if cart.isEmpty then
    { user := { conversation_state := "", conversation_data := ⟨"", "", ""⟩ },
      cart := cart, created := none, empty_cart_message := true }
  else
    { user := { conversation_state := "", conversation_data := ⟨"", "", ""⟩ },
      cart := [],
      created := some
        ({ status := "pending",
           delivery_address := u.conversation_data.address,
           phone := u.conversation_data.phone,
           notes := u.conversation_data.notes,
           total := (cart.map
             (fun l => priceOf menu l.menu_item_id * l.quantity)).sum },
         cart.map (fun l =>
           { menu_item_id := l.menu_item_id,
             name := nameOf menu l.menu_item_id,
             quantity := l.quantity,
             price := priceOf menu l.menu_item_id })),
      empty_cart_message := false }

def sampleMenu : List MenuItemRow :=
  [{ id := 1, name := "Nasi Goreng", price := 10000 },
   { id := 2, name := "Es Teh", price := 5000 }]

def sampleCart : List CartLine :=
  [{ menu_item_id := 1, quantity := 2 }, { menu_item_id := 2, quantity := 1 }]

def sampleUserConv : UserConv :=
  { conversation_state := "checkout_notes",
    conversation_data :=
      ⟨"Jalan Example 10", "08123456789", "extra sauce"⟩ }

/-! #### Claim C3 -/

/-- Claim C3: finalizing a non-empty cart of N lines (whose item references
resolve, as the FK guarantees) creates exactly one Order carrying exactly N
OrderLines; line i snapshots the name and price the referenced menu item has
at finalize time together with the cart quantity; the order total is the sum
of current price times quantity over the cart; and the cart is empty
immediately after. -/
theorem c3_finalize_snapshots (menu : List MenuItemRow) (cart : List CartLine)
    (u : UserConv) (hne : cart ≠ [])
    (hfk : ∀ l ∈ cart, (lookupMenu menu l.menu_item_id).isSome) :
    ∃ o lines, (finalize_order menu cart u).created = some (o, lines) ∧
      lines.length = cart.length ∧
      List.Forall₂ (fun (l : CartLine) (ol : OrderLineRow) =>
        ∃ m, lookupMenu menu l.menu_item_id = some m ∧
          ol.menu_item_id = l.menu_item_id ∧ ol.name = m.name ∧
          ol.price = m.price ∧ ol.quantity = l.quantity) cart lines ∧
      o.total =
        (cart.map (fun l => priceOf menu l.menu_item_id * l.quantity)).sum ∧
      o.total = (lines.map (fun ol => ol.price * ol.quantity)).sum ∧
      (finalize_order menu cart u).cart = [] := by
  have hni : cart.isEmpty = false := by
    cases cart with
    | nil => exact absurd rfl hne
    | cons a l => rfl
  unfold finalize_order
  rw [hni]
  simp only [Bool.false_eq_true, if_false]
  refine ⟨_, _, rfl, ?_, ?_, ?_, ?_, ?_⟩
  · simp
  · rw [List.forall₂_map_right_iff, List.forall₂_same]
    intro l hl
    obtain ⟨m, hm⟩ := Option.isSome_iff_exists.mp (hfk l hl)
    exact ⟨m, hm, rfl, by simp [nameOf, hm], by simp [priceOf, hm], rfl⟩
  · rfl
  · rw [List.map_map]
    rfl
  · trivial

/-- Witness for C3: the spec scenario cart{A×2 @10000, B×1 @5000} finalizes
into an order of total 25000 with two snapshot lines and an empty cart. -/
theorem c3_finalize_witness :
    ∃ o lines,
      (finalize_order sampleMenu sampleCart sampleUserConv).created =
        some (o, lines) ∧
      lines.length = 2 ∧ o.total = 25000 ∧
      (finalize_order sampleMenu sampleCart sampleUserConv).cart = [] := by
  obtain ⟨o, lines, hcr, hlen, -, htot, -, hcart⟩ :=
    c3_finalize_snapshots sampleMenu sampleCart sampleUserConv
      (by decide) (by decide)
  exact ⟨o, lines, hcr, hlen.trans (by decide), htot.trans (by decide), hcart⟩

/-! #### Claim C4 -/

/-- Claim C4: finalizing with an empty cart creates no Order and no
OrderLines, reports the empty-cart error message, leaves the cart empty and
still resets the conversation state and scratch data. -/
theorem c4_empty_cart_rejected (menu : List MenuItemRow) (u : UserConv) :
    (finalize_order menu [] u).created = none ∧
    (finalize_order menu [] u).cart = [] ∧
    (finalize_order menu [] u).empty_cart_message = true ∧
    (finalize_order menu [] u).user =
      { conversation_state := "", conversation_data := ⟨"", "", ""⟩ } :=
  ⟨rfl, rfl, rfl, rfl⟩

/-! ### Order number generation (orders/models.py, Order.save lines 120-128) -/

/-- One character of `'0123456789'` selected by `random.choices`. -/
def digitChar (d : Fin 10) : Char := Char.ofNat (48 + d.val)

/-- `''.join(random.choices('0123456789', k=4))`, with the random sampler
abstracted as `draw`. -/
def random_digits (draw : Fin 4 → Fin 10) : String :=
  String.mk [digitChar (draw 0), digitChar (draw 1),
             digitChar (draw 2), digitChar (draw 3)]

/-- `f"BF-{date_str}-{random_str}"` (models.py line 127). -/
def generate_order_number (date_str : String) (draw : Fin 4 → Fin 10) :
    String :=
  "BF-" ++ date_str ++ "-" ++ random_digits draw

/-- `Order.save`: fill `order_number` when blank (one generation attempt, no
retry loop in the source) and insert the row; the column is declared
`unique=True`, so inserting a number already present fails the save with an
integrity error. Returns the stored number and the updated set of numbers. -/
def order_save (existing : List String) (order_number generated : String) :
    Except String (String × List String) :=
  let num := if order_number = "" then generated else order_number
  if num ∈ existing then Except.error "duplicate order_number"
  else Except.ok (num, num :: existing)

def drawOnes : Fin 4 → Fin 10 := fun _ => 1

lemma digitChar_isDigit (d : Fin 10) : (digitChar d).isDigit = true := by
  fin_cases d <;> decide

/-! #### Claim C5 -/

/-- Claim C5 counterexample: the generator does not regenerate on a
collision — when the freshly generated number already exists, `Order.save`
fails the whole operation with a unique-constraint error instead of
retrying (and the generator alone can emit duplicates, here twice
`BF-20260101-1111`). -/
theorem c5_counterexample :
    generate_order_number "20260101" drawOnes = "BF-20260101-1111" ∧
    order_save [generate_order_number "20260101" drawOnes] ""
        (generate_order_number "20260101" drawOnes) =
      Except.error "duplicate order_number" :=
  ⟨by decide, rfl⟩

/-- Claim C5 (amended): every generated order number has the format
`BF-<date>-<4 digits>`; there is no regeneration — when the generated
number collides with an existing one the save fails with a
unique-constraint error, and only this constraint (not the generator) keeps
the stored numbers unique: a non-colliding save stores the number, and a
duplicate-free table stays duplicate-free. -/
theorem c5_order_number_amended (date_str : String) (draw : Fin 4 → Fin 10)
    (existing : List String) :
    (generate_order_number date_str draw =
        "BF-" ++ date_str ++ "-" ++ random_digits draw ∧
      (random_digits draw).length = 4 ∧
      ∀ c ∈ (random_digits draw).data, c.isDigit = true) ∧
    (generate_order_number date_str draw ∈ existing →
      order_save existing "" (generate_order_number date_str draw) =
        Except.error "duplicate order_number") ∧
    (generate_order_number date_str draw ∉ existing →
      order_save existing "" (generate_order_number date_str draw) =
        Except.ok (generate_order_number date_str draw,
          generate_order_number date_str draw :: existing) ∧
      (existing.Nodup →
        (generate_order_number date_str draw :: existing).Nodup)) := by
  refine ⟨⟨rfl, rfl, ?_⟩, ?_, ?_⟩
  · intro c hc
    simp [random_digits] at hc
    rcases hc with rfl | rfl | rfl | rfl <;> exact digitChar_isDigit _
  · intro h
    simp [order_save, h]
  · intro h
    refine ⟨by simp [order_save, h], fun hnd => List.nodup_cons.mpr ⟨h, hnd⟩⟩

/-- Witness for the amended C5: saving a fresh generated number into an
empty table succeeds and stores it. -/
theorem c5_order_number_witness :
    generate_order_number "20260101" drawOnes ∉ ([] : List String) ∧
    order_save [] "" (generate_order_number "20260101" drawOnes) =
      Except.ok (generate_order_number "20260101" drawOnes,
        [generate_order_number "20260101" drawOnes]) := by
  refine ⟨by decide, ?_⟩
  exact ((c5_order_number_amended "20260101" drawOnes []).2.2 (by decide)).1

/-! ### Cart callbacks (bot/handlers/callbacks.py, handle_cart_action) -/

/-- A `CartItem` row of the global cart-items table: primary key, owning
cart, item reference, quantity. -/
structure CartItemRow where
  id : Nat
  cart_id : Nat
  menu_item_id : Nat
  quantity : Nat
deriving DecidableEq, Repr

/-- `CartItem.objects.get(id=item_id)`: primary-key lookup over the whole
table — note the absence of any cart filter (callbacks.py lines 170, 180,
193). -/
def findCartItem : List CartItemRow → Nat → Option CartItemRow
  | [], _ => none
  | r :: rest, i => if r.id = i then some r else findCartItem rest i

/-- `cart_item.save()`: write back the row with the given primary key. -/
def saveCartItem : List CartItemRow → Nat → CartItemRow → List CartItemRow
  | [], _, _ => []
  | r :: rest, i, q => (if r.id = i then q else r) :: saveCartItem rest i q

/-- `cart_item.delete()`: delete the row with the given primary key. -/
def deleteCartItem : List CartItemRow → Nat → List CartItemRow
  | [], _ => []
  | r :: rest, i =>
      if r.id = i then deleteCartItem rest i else r :: deleteCartItem rest i

/-- The `cart:increase` branch (callbacks.py lines 167-175). -/
def cart_increase (db : List CartItemRow) (item_id : Nat) :
    List CartItemRow :=
  match findCartItem db item_id with
  | none => db
  | some r => saveCartItem db item_id { r with quantity := r.quantity + 1 }

/-- The `cart:decrease` branch (callbacks.py lines 177-188). -/
def cart_decrease (db : List CartItemRow) (item_id : Nat) :
    List CartItemRow :=
  match findCartItem db item_id with
  | none => db
  | some r =>
      if r.quantity > 1 then
        saveCartItem db item_id { r with quantity := r.quantity - 1 }
      else deleteCartItem db item_id

/-- The `cart:remove` branch (callbacks.py lines 190-197). -/
def cart_remove (db : List CartItemRow) (item_id : Nat) : List CartItemRow :=
  match findCartItem db item_id with
  | none => db
  | some _ => deleteCartItem db item_id

/-- `handle_cart_action`'s table mutations: the caller must exist and have a
cart (lines 134-141), but the caller's cart id is never used by the
increase/decrease/remove branches — the line is addressed by its global
primary key alone. -/
def handle_cart_action (db : List CartItemRow) (caller_has_cart : Bool)
    (caller_cart_id : Nat) (action : String) (item_id : Nat) :
    List CartItemRow :=
  if caller_has_cart then
    if action = "increase" then cart_increase db item_id
    else if action = "decrease" then cart_decrease db item_id
    else if action = "remove" then cart_remove db item_id
    else db
  else db

def sampleCartDB : List CartItemRow :=
  [{ id := 1, cart_id := 10, menu_item_id := 100, quantity := 2 },
   { id := 2, cart_id := 20, menu_item_id := 200, quantity := 1 }]

lemma findCartItem_id (db : List CartItemRow) (i : Nat) (r : CartItemRow)
    (h : findCartItem db i = some r) : r.id = i := by
  induction db with
  | nil => simp [findCartItem] at h
  | cons x rest ih =>
      by_cases hx : x.id = i
      · simp [findCartItem, hx] at h
        rw [← h]
        exact hx
      · simp [findCartItem, hx] at h
        exact ih h

lemma findCartItem_saveCartItem (db : List CartItemRow) (i : Nat)
    (q : CartItemRow) (hq : q.id = i) (h : (findCartItem db i).isSome) :
    findCartItem (saveCartItem db i q) i = some q := by
  induction db with
  | nil => simp [findCartItem] at h
  | cons r rest ih =>
      by_cases hr : r.id = i
      · simp [saveCartItem, findCartItem, hr, hq]
      · simp [saveCartItem, findCartItem, hr] at h ⊢
        exact ih h

lemma findCartItem_deleteCartItem (db : List CartItemRow) (i : Nat) :
    findCartItem (deleteCartItem db i) i = none := by
  induction db with
  | nil => rfl
  | cons r rest ih =>
      by_cases hr : r.id = i
      · simp [deleteCartItem, hr, ih]
      · simp [deleteCartItem, findCartItem, hr, ih]

/-! #### Claim C10 -/

/-- Claim C10: the increase/decrease/remove cart callbacks address the line
by its global id only, with no check that it belongs to the caller's cart:
the mutation result is independent of the caller's cart id, and a line
living in a different user's cart than the caller's is still incremented,
decremented-or-deleted, or removed. -/
theorem c10_cart_actions_ignore_ownership (db : List CartItemRow)
    (caller_cart_id other_cart_id item_id : Nat) (r : CartItemRow)
    (hfind : findCartItem db item_id = some r)
    (hforeign : r.cart_id ≠ caller_cart_id) :
    (∀ a, handle_cart_action db true caller_cart_id a item_id =
      handle_cart_action db true other_cart_id a item_id) ∧
    findCartItem (handle_cart_action db true caller_cart_id "increase"
        item_id) item_id = some { r with quantity := r.quantity + 1 } ∧
    findCartItem (handle_cart_action db true caller_cart_id "remove"
        item_id) item_id = none ∧
    findCartItem (handle_cart_action db true caller_cart_id "decrease"
        item_id) item_id =
      (if r.quantity > 1 then some { r with quantity := r.quantity - 1 }
       else none) := by
  have hid : r.id = item_id := findCartItem_id db item_id r hfind
  refine ⟨fun a => rfl, ?_, ?_, ?_⟩
  · simp only [handle_cart_action, cart_increase, hfind, if_true]
    exact findCartItem_saveCartItem db item_id _ hid (by simp [hfind])
  · simp only [handle_cart_action, cart_remove, hfind]
    norm_num
    exact findCartItem_deleteCartItem db item_id
  · by_cases hq : r.quantity > 1
    · simp only [handle_cart_action, cart_decrease, hfind, hq, if_true,
        if_pos hq]
      exact findCartItem_saveCartItem db item_id _ hid (by simp [hfind])
    · simp only [handle_cart_action, cart_decrease, hfind, hq, if_neg hq]
      exact findCartItem_deleteCartItem db item_id

/-- Witness for C10: line 1 lives in cart 10, yet a caller whose cart is 99
increases it. -/
theorem c10_cart_actions_witness :
    findCartItem (handle_cart_action sampleCartDB true 99 "increase" 1) 1 =
      some { id := 1, cart_id := 10, menu_item_id := 100, quantity := 3 } := by
  have h := c10_cart_actions_ignore_ownership sampleCartDB 99 7 1
    { id := 1, cart_id := 10, menu_item_id := 100, quantity := 2 }
    (by decide) (by decide)
  exact h.2.1

end BejoFood
